import Mathlib

/-!
Shallow embedding of `src/injestion/load_document.py`: a document-fetching
utility made of a storage-access port, an HTTP downloader, a load service
and a path-naming repository.  Collaborator calls are recorded in explicit
traces so that the orchestration claims (which calls happen, how often,
with which arguments, in which order) become provable statements.
-/

namespace LoadDocument

/-! ### Paths

`pathlib.PurePosixPath`-style paths: an absolute flag plus the list of
components.  Parsing a string drops empty components and single-dot
components (as `pathlib` does) and keeps everything else, `".."` included.
-/

structure PPath where
  absolute : Bool
  parts : List String
deriving DecidableEq, Repr

/-- Split a character list on every occurrence of `c` (the semantics of
`str.split("/")`, written over the character list so that it evaluates). -/
def splitOnChar (c : Char) : List Char → List (List Char)
  | [] => [[]]
  | x :: xs =>
    match splitOnChar c xs with
    | [] => [[]]
    | seg :: rest => if x = c then [] :: seg :: rest else (x :: seg) :: rest

def PPath.parse (s : String) : PPath :=
  { absolute := match s.data with
      | [] => false
      | c :: _ => c == '/',
    parts := ((splitOnChar '/' s.data).map List.asString).filter
      fun seg => !(seg == "" || seg == ".") }

/-- `pathlib`'s `PurePath.__truediv__` for a string operand: parse the
operand; an absolute operand replaces the left path, a relative one is
appended. -/
def PPath.div (self : PPath) (key : String) : PPath :=
  let k := PPath.parse key
  if k.absolute then k else ⟨self.absolute, self.parts ++ k.parts⟩

/-- `pathlib`'s `PurePath.parent`: drop the last component. -/
def PPath.parent (self : PPath) : PPath :=
  ⟨self.absolute, self.parts.dropLast⟩

/-! ### Document load service

`DocumentLoadService.load_document` is embedded as a function from the
injected collaborators to the returned value (an `Except`, so that errors
raised by a collaborator and propagated by the service are visible)
together with the trace of collaborator calls made, in order.  The
collaborators are the `FileSystemInterface` port (`exists` is modelled as a
pure oracle, as the port returns a plain bool; `create_directory` may
raise) and the `DocumentDownloader` port (`download` may raise).  The error
type `ε` is abstract: the service never inspects, wraps or swallows an
error. -/

inductive ServiceCall where
  | existsCall (destination : PPath)
  | createDirectoryCall (path : PPath)
  | downloadCall (url : String) (destination : PPath)
deriving DecidableEq, Repr

structure FileSystemInterface (ε : Type) where
  existsPath : PPath → Bool
  create_directory : PPath → Except ε Unit

structure DocumentDownloader (ε : Type) where
  download : String → PPath → Except ε Unit

structure DocumentLoadService (ε : Type) where
  downloader : DocumentDownloader ε
  file_system : FileSystemInterface ε

/-- Transcription of `DocumentLoadService.load_document`:

    if skip_if_exists and self.file_system.exists(destination):
        return False
    self.file_system.create_directory(destination.parent)
    self.downloader.download(url, destination)
    return True

Python's `and` short-circuits, so the `exists` query is issued (and traced)
exactly when `skip_if_exists` is true. -/
def DocumentLoadService.load_document {ε : Type} (self : DocumentLoadService ε)
    (url : String) (destination : PPath) (skip_if_exists : Bool) :
    Except ε Bool × List ServiceCall :=
  let checkTrace : List ServiceCall :=
    if skip_if_exists then [.existsCall destination] else []
  if skip_if_exists && self.file_system.existsPath destination then
    (.ok false, checkTrace)
  else
    match self.file_system.create_directory destination.parent with
    | .error e => (.error e, checkTrace ++ [.createDirectoryCall destination.parent])
    | .ok _ =>
      match self.downloader.download url destination with
      | .error e =>
        (.error e,
          checkTrace ++ [.createDirectoryCall destination.parent,
            .downloadCall url destination])
      | .ok _ =>
        (.ok true,
          checkTrace ++ [.createDirectoryCall destination.parent,
            .downloadCall url destination])

def isExistsCall : ServiceCall → Bool
  | .existsCall _ => true
  | _ => false

def isCreateDirectoryCall : ServiceCall → Bool
  | .createDirectoryCall _ => true
  | _ => false

def isDownloadCall : ServiceCall → Bool
  | .downloadCall _ _ => true
  | _ => false

/-- The sublist of `exists` queries in a trace. -/
def existsCalls (t : List ServiceCall) : List ServiceCall :=
  t.filter isExistsCall

/-- The sublist of directory-creation calls in a trace. -/
def createDirectoryCalls (t : List ServiceCall) : List ServiceCall :=
  t.filter isCreateDirectoryCall

/-- The sublist of download calls in a trace. -/
def downloadCalls (t : List ServiceCall) : List ServiceCall :=
  t.filter isDownloadCall

/-! ### Concrete sample collaborators, used by the witnesses -/

def sampleDest : PPath := ⟨true, ["docs", "a.pdf"]⟩

def sampleUrl : String := "http://example.com/a.pdf"

/-- A service whose file system reports every path as present and whose
collaborators never fail. -/
def serviceAllExist : DocumentLoadService String :=
  { downloader := ⟨fun _ _ => .ok ()⟩,
    file_system := { existsPath := fun _ => true,
                     create_directory := fun _ => .ok () } }

/-- A service whose file system reports every path as absent and whose
collaborators never fail. -/
def serviceNoneExist : DocumentLoadService String :=
  { downloader := ⟨fun _ _ => .ok ()⟩,
    file_system := { existsPath := fun _ => false,
                     create_directory := fun _ => .ok () } }

/-- A service whose downloader always raises. -/
def serviceDownloadFails : DocumentLoadService String :=
  { downloader := ⟨fun _ _ => .error ("boom")⟩,
    file_system := { existsPath := fun _ => false,
                     create_directory := fun _ => .ok () } }

/-- A service whose directory creation always raises. -/
def serviceCreateDirFails : DocumentLoadService String :=
  { downloader := ⟨fun _ _ => .ok ()⟩,
    file_system := { existsPath := fun _ => false,
                     create_directory := fun _ => .error ("denied") } }

/-! ### Claims about the load service -/

/-- C1: if the file system reports that the destination exists and
`skip_if_exists` is true, `load_document` returns `false` and its trace
holds no directory-creation call and no download call — the only
collaborator call made is the existence query itself. -/
theorem load_document_skip_when_exists {ε : Type} (s : DocumentLoadService ε)
    (u : String) (d : PPath) (h : s.file_system.existsPath d = true) :
    (s.load_document u d true).1 = .ok false ∧
    createDirectoryCalls (s.load_document u d true).2 = [] ∧
    downloadCalls (s.load_document u d true).2 = [] ∧
    (s.load_document u d true).2 = [.existsCall d] := by
  simp [DocumentLoadService.load_document, h, createDirectoryCalls, downloadCalls,
    isCreateDirectoryCall, isDownloadCall]

theorem load_document_skip_when_exists_witness :
    (serviceAllExist.load_document sampleUrl sampleDest true).1 = .ok false ∧
    createDirectoryCalls (serviceAllExist.load_document sampleUrl sampleDest true).2 = [] ∧
    downloadCalls (serviceAllExist.load_document sampleUrl sampleDest true).2 = [] ∧
    (serviceAllExist.load_document sampleUrl sampleDest true).2 = [.existsCall sampleDest] :=
  load_document_skip_when_exists serviceAllExist sampleUrl sampleDest rfl

/-- C2: if the file system reports that the destination is absent and
neither collaborator raises, `load_document` returns `true` for either
value of `skip_if_exists`, and the trace holds exactly one
directory-creation call (on the destination's parent) and exactly one
download call (with the original url and destination). -/
theorem load_document_fresh_download {ε : Type} (s : DocumentLoadService ε)
    (u : String) (d : PPath) (b : Bool)
    (hex : s.file_system.existsPath d = false)
    (hcd : s.file_system.create_directory d.parent = .ok ())
    (hdl : s.downloader.download u d = .ok ()) :
    (s.load_document u d b).1 = .ok true ∧
    createDirectoryCalls (s.load_document u d b).2 = [.createDirectoryCall d.parent] ∧
    downloadCalls (s.load_document u d b).2 = [.downloadCall u d] := by
  cases b <;>
    simp [DocumentLoadService.load_document, hex, hcd, hdl, createDirectoryCalls,
      downloadCalls, isCreateDirectoryCall, isDownloadCall, isExistsCall]

theorem load_document_fresh_download_witness :
    (serviceNoneExist.load_document sampleUrl sampleDest true).1 = .ok true ∧
    createDirectoryCalls (serviceNoneExist.load_document sampleUrl sampleDest true).2 =
      [.createDirectoryCall sampleDest.parent] ∧
    downloadCalls (serviceNoneExist.load_document sampleUrl sampleDest true).2 =
      [.downloadCall sampleUrl sampleDest] :=
  load_document_fresh_download serviceNoneExist sampleUrl sampleDest true rfl rfl rfl

/-- C3: if the file system reports that the destination exists but
`skip_if_exists` is false and neither collaborator raises, `load_document`
returns `true`, and the trace holds exactly one directory-creation call and
exactly one download call carrying the original url and destination. -/
theorem load_document_forced_overwrite {ε : Type} (s : DocumentLoadService ε)
    (u : String) (d : PPath)
    (hex : s.file_system.existsPath d = true)
    (hcd : s.file_system.create_directory d.parent = .ok ())
    (hdl : s.downloader.download u d = .ok ()) :
    (s.load_document u d false).1 = .ok true ∧
    createDirectoryCalls (s.load_document u d false).2 = [.createDirectoryCall d.parent] ∧
    downloadCalls (s.load_document u d false).2 = [.downloadCall u d] := by
  simp [DocumentLoadService.load_document, hex, hcd, hdl, createDirectoryCalls,
    downloadCalls, isCreateDirectoryCall, isDownloadCall, isExistsCall]

theorem load_document_forced_overwrite_witness :
    (serviceAllExist.load_document sampleUrl sampleDest false).1 = .ok true ∧
    createDirectoryCalls (serviceAllExist.load_document sampleUrl sampleDest false).2 =
      [.createDirectoryCall sampleDest.parent] ∧
    downloadCalls (serviceAllExist.load_document sampleUrl sampleDest false).2 =
      [.downloadCall sampleUrl sampleDest] :=
  load_document_forced_overwrite serviceAllExist sampleUrl sampleDest rfl rfl rfl

/-- C4: if the download call is reached (the skip branch is not taken and
directory creation succeeds) and the downloader raises `e`, then
`load_document` propagates exactly that error — it returns `.error e`, not
any `.ok` boolean, with no catching or wrapping. -/
theorem load_document_propagates_download_error {ε : Type}
    (s : DocumentLoadService ε) (u : String) (d : PPath) (b : Bool) (e : ε)
    (hns : b = true → s.file_system.existsPath d = false)
    (hcd : s.file_system.create_directory d.parent = .ok ())
    (hdl : s.downloader.download u d = .error e) :
    (s.load_document u d b).1 = .error e := by
  cases b with
  | false => simp [DocumentLoadService.load_document, hcd, hdl]
  | true => simp [DocumentLoadService.load_document, hns rfl, hcd, hdl]

theorem load_document_propagates_download_error_witness :
    (serviceDownloadFails.load_document sampleUrl sampleDest true).1 = .error ("boom") :=
  load_document_propagates_download_error serviceDownloadFails sampleUrl sampleDest true
    ("boom") (fun _ => rfl) rfl rfl

/-- C9: if the skip branch is not taken and directory creation raises `e`,
then `load_document` propagates exactly that error and the trace holds no
download call: directory creation strictly precedes the download. -/
theorem load_document_create_directory_error_precedes_download {ε : Type}
    (s : DocumentLoadService ε) (u : String) (d : PPath) (b : Bool) (e : ε)
    (hns : b = true → s.file_system.existsPath d = false)
    (hcd : s.file_system.create_directory d.parent = .error e) :
    (s.load_document u d b).1 = .error e ∧
    downloadCalls (s.load_document u d b).2 = [] := by
  cases b with
  | false =>
    simp [DocumentLoadService.load_document, hcd, downloadCalls, isDownloadCall]
  | true =>
    simp [DocumentLoadService.load_document, hns rfl, hcd, downloadCalls,
      isDownloadCall, isExistsCall, isCreateDirectoryCall]

theorem load_document_create_directory_error_witness :
    (serviceCreateDirFails.load_document sampleUrl sampleDest true).1 = .error ("denied") ∧
    downloadCalls (serviceCreateDirFails.load_document sampleUrl sampleDest true).2 = [] :=
  load_document_create_directory_error_precedes_download serviceCreateDirFails
    sampleUrl sampleDest true ("denied") (fun _ => rfl) rfl

/-- C10: with `skip_if_exists = false` the service never queries the file
system for existence: for every service, url and destination the trace
holds no `exists` call at all. -/
theorem load_document_no_skip_never_queries_existence {ε : Type}
    (s : DocumentLoadService ε) (u : String) (d : PPath) :
    existsCalls (s.load_document u d false).2 = [] := by
  simp only [DocumentLoadService.load_document]
  cases hc : s.file_system.create_directory d.parent with
  | error e => simp [existsCalls, isExistsCall]
  | ok v =>
    cases hd : s.downloader.download u d <;>
      simp [existsCalls, isExistsCall, isCreateDirectoryCall, isDownloadCall]

/-! ### HTTP downloader

`HTTPDocumentDownloader.download` is embedded against an oracle
`get : url → timeout → Response` standing for `requests.get(url,
stream=True, timeout=...)` having delivered a response.  `raise_for_status`
follows the `requests` library: it raises `HTTPError` exactly for status
codes in `[400, 600)`.  The filesystem writes performed by `download`
(recursive parent creation, then writing the body) are returned as a trace
of storage events. -/

structure Response where
  status_code : Nat
  content : List Nat
deriving DecidableEq, Repr

inductive RequestErr where
  | hTTPError (status : Nat)
deriving DecidableEq, Repr

/-- `requests.Response.raise_for_status`: `HTTPError` iff
`400 <= status_code < 600`. -/
def Response.raise_for_status (r : Response) : Except RequestErr Unit :=
  if 400 ≤ r.status_code ∧ r.status_code < 600 then
    .error (.hTTPError r.status_code)
  else
    .ok ()

inductive StorageEvent where
  | mkdirParentsEvent (p : PPath)
  | writeBytesEvent (p : PPath) (content : List Nat)
deriving DecidableEq, Repr

structure HTTPDocumentDownloader where
  timeout : Nat
  chunk_size : Nat
deriving DecidableEq, Repr

/-- The `__init__` defaults: `timeout=30`, `chunk_size=8192`. -/
def HTTPDocumentDownloader.default : HTTPDocumentDownloader := ⟨30, 8192⟩

/-- Transcription of `HTTPDocumentDownloader.download`:

    response = requests.get(url, stream=True, timeout=self.timeout)
    response.raise_for_status()
    destination.parent.mkdir(parents=True, exist_ok=True)
    destination.write_bytes(response.content)
-/
def HTTPDocumentDownloader.download (self : HTTPDocumentDownloader)
    (get : String → Nat → Response) (url : String) (destination : PPath) :
    Except RequestErr Unit × List StorageEvent :=
  let response := get url self.timeout
  match response.raise_for_status with
  | .error e => (.error e, [])
  | .ok _ =>
    (.ok (),
      [.mkdirParentsEvent destination.parent,
        .writeBytesEvent destination response.content])

/-! ### Claims about the HTTP downloader -/

/-- C5, counterexample: status 304 is non-2xx, yet `download` succeeds and
writes the response body to the destination — `raise_for_status` only
raises for statuses in `[400, 600)`, so a non-2xx, non-error status such as
304 neither fails nor prevents the write. -/
theorem download_non2xx_counterexample :
    ¬ (200 ≤ 304 ∧ 304 < 300) ∧
    (HTTPDocumentDownloader.default.download (fun _ _ => ⟨304, [65]⟩)
        sampleUrl sampleDest).1 = .ok () ∧
    (HTTPDocumentDownloader.default.download (fun _ _ => ⟨304, [65]⟩)
        sampleUrl sampleDest).2 =
      [.mkdirParentsEvent sampleDest.parent, .writeBytesEvent sampleDest [65]] := by
  refine ⟨by omega, rfl, rfl⟩

/-- C5, amended: if the response status is a client or server error (in
`[400, 600)`), `download` fails with the HTTP-error condition carrying that
status and performs no storage write at all. -/
theorem download_error_status_writes_nothing (self : HTTPDocumentDownloader)
    (get : String → Nat → Response) (url : String) (destination : PPath)
    (h4 : 400 ≤ (get url self.timeout).status_code)
    (h6 : (get url self.timeout).status_code < 600) :
    self.download get url destination =
      (.error (.hTTPError (get url self.timeout).status_code), []) := by
  simp [HTTPDocumentDownloader.download, Response.raise_for_status, h4, h6]

theorem download_error_status_writes_nothing_witness :
    HTTPDocumentDownloader.default.download (fun _ _ => ⟨404, [65]⟩)
        sampleUrl sampleDest =
      (.error (.hTTPError 404), []) :=
  download_error_status_writes_nothing HTTPDocumentDownloader.default
    (fun _ _ => ⟨404, [65]⟩) sampleUrl sampleDest (by decide) (by decide)

/-- C8: the configured chunk size is not observable in the output of
`download`: two downloaders differing only in `chunk_size`, given the same
response oracle, url and destination, produce the same result and the very
same storage events (in particular the same bytes written). -/
theorem download_independent_of_chunk_size (t c₁ c₂ : Nat)
    (get : String → Nat → Response) (url : String) (destination : PPath) :
    HTTPDocumentDownloader.download ⟨t, c₁⟩ get url destination =
    HTTPDocumentDownloader.download ⟨t, c₂⟩ get url destination := rfl

/-! ### Document repository -/

structure DocumentRepository where
  base_directory : PPath
deriving DecidableEq, Repr

/-- Transcription of `DocumentRepository.get_document_path`:
`return self.base_directory / filename`. -/
def DocumentRepository.get_document_path (self : DocumentRepository)
    (filename : String) : PPath :=
  self.base_directory.div filename

/-- The platform path-join of a base directory and a filename, written from
the spec's words: the filename is parsed by the platform's path syntax and
joined onto the base with no validation and no normalization — a relative
filename keeps every one of its components (traversal segments included)
appended after the base's components, an absolute filename replaces the
base entirely. -/
def platform_path_join (base : PPath) (filename : String) : PPath :=
  match PPath.parse filename with
  | ⟨true, segs⟩ => ⟨true, segs⟩
  | ⟨false, segs⟩ => ⟨base.absolute, base.parts ++ segs⟩

/-- C6: `get_document_path` on a repository rooted at `b` yields exactly
the platform join of `b` and the filename, for every filename; moreover a
path-traversal filename is passed through without validation, as the
concrete instance `"../secret"` shows. -/
theorem get_document_path_is_platform_join (b : PPath) (f : String) :
    (DocumentRepository.mk b).get_document_path f = platform_path_join b f ∧
    (DocumentRepository.mk b).get_document_path ("../secret") =
      ⟨b.absolute, b.parts ++ ["..", "secret"]⟩ := by
  constructor
  · rcases h : PPath.parse f with ⟨abs, segs⟩
    cases abs <;>
      simp [DocumentRepository.get_document_path, PPath.div, platform_path_join, h]
  · have h : PPath.parse ("../secret") = ⟨false, ["..", "secret"]⟩ := by
      decide
    simp [DocumentRepository.get_document_path, PPath.div, h]

/-! ### Filesystem state and `mkdir(parents=True, exist_ok=True)`

`DefaultFileSystem.create_directory` is `path.mkdir(parents=True,
exist_ok=True)`: it walks the prefixes of the path from the shortest one,
descends through components that already exist as directories, creates the
missing ones, and raises when a component exists as a non-directory entry
(`exist_ok` only suppresses the error for an existing *directory*).  The
state is the finite table of filesystem entries; a failing call keeps
whatever ancestors were created before the failure. -/

inductive EntryKind where
  | file
  | dir
deriving DecidableEq, Repr

structure FSState where
  entries : List (PPath × EntryKind)
deriving DecidableEq, Repr

def lookupEntry (p : PPath) : List (PPath × EntryKind) → Option EntryKind
  | [] => none
  | e :: rest => if e.1 = p then some e.2 else lookupEntry p rest

/-- The non-empty prefixes of a path, shortest first. -/
def PPath.prefixes (p : PPath) : List PPath :=
  (List.range p.parts.length).map fun i => ⟨p.absolute, p.parts.take (i + 1)⟩

/-- Create each path of the list in turn: an existing directory is
descended into, a missing entry is created as a directory, an existing
non-directory raises (leaving the directories created so far in place). -/
def mkdirAll : List PPath → FSState → Except Unit Unit × FSState
  | [], st => (.ok (), st)
  | q :: qs, st =>
    match lookupEntry q st.entries with
    | some .dir => mkdirAll qs st
    | some .file => (.error (), st)
    | none => mkdirAll qs ⟨(q, .dir) :: st.entries⟩

/-- `DefaultFileSystem.create_directory`:
`path.mkdir(parents=True, exist_ok=True)`. -/
def DefaultFileSystem.create_directory (st : FSState) (p : PPath) :
    Except Unit Unit × FSState :=
  mkdirAll p.prefixes st

/-- `DocumentRepository.ensure_directory_exists`:
`self.base_directory.mkdir(parents=True, exist_ok=True)`. -/
def DocumentRepository.ensure_directory_exists (self : DocumentRepository)
    (st : FSState) : Except Unit Unit × FSState :=
  DefaultFileSystem.create_directory st self.base_directory

/-! Helper lemmas for the idempotence of directory creation. -/

lemma lookupEntry_append_of_ne (q : PPath) (new old : List (PPath × EntryKind))
    (h : ∀ e ∈ new, e.1 ≠ q) :
    lookupEntry q (new ++ old) = lookupEntry q old := by
  induction new with
  | nil => rfl
  | cons e rest ih =>
    have hne : e.1 ≠ q := h e (List.mem_cons_self e rest)
    simp only [List.cons_append, lookupEntry, if_neg hne]
    exact ih fun x hx => h x (List.mem_cons_of_mem e hx)

/-- A successful `mkdirAll` run only conses new directory entries, and
every path it adds comes from the worklist. -/
lemma mkdirAll_ok_shape : ∀ (qs : List PPath) (st st' : FSState),
    mkdirAll qs st = (.ok (), st') →
    ∃ new, st'.entries = new ++ st.entries ∧ ∀ e ∈ new, e.1 ∈ qs := by
  intro qs
  induction qs with
  | nil =>
    intro st st' h
    simp only [mkdirAll, Prod.mk.injEq] at h
    exact ⟨[], by simp [← h.2], by simp⟩
  | cons q qs ih =>
    intro st st' h
    simp only [mkdirAll] at h
    cases hl : lookupEntry q st.entries with
    | none =>
      rw [hl] at h
      obtain ⟨new, hentries, hmem⟩ := ih _ _ h
      refine ⟨new ++ [(q, .dir)], by simpa using hentries, ?_⟩
      intro e he
      rcases List.mem_append.mp he with he' | he'
      · exact List.mem_cons_of_mem q (hmem e he')
      · simp only [List.mem_singleton] at he'
        subst he'
        exact List.mem_cons_self q qs
    | some k =>
      cases k with
      | dir =>
        rw [hl] at h
        obtain ⟨new, hentries, hmem⟩ := ih _ _ h
        exact ⟨new, hentries, fun e he => List.mem_cons_of_mem q (hmem e he)⟩
      | file =>
        rw [hl] at h
        simp at h

/-- Rerunning a successful `mkdirAll` from its final state succeeds and
changes nothing, provided the worklist has no duplicates. -/
lemma mkdirAll_idem : ∀ (qs : List PPath), qs.Nodup →
    ∀ (st st' : FSState), mkdirAll qs st = (.ok (), st') →
    mkdirAll qs st' = (.ok (), st') := by
  intro qs
  induction qs with
  | nil =>
    intro _ st st' h
    simp only [mkdirAll, Prod.mk.injEq] at h
    simp [mkdirAll, h.2]
  | cons q qs ih =>
    intro hnd st st' h
    have hq : q ∉ qs := (List.nodup_cons.mp hnd).1
    have hnd' : qs.Nodup := (List.nodup_cons.mp hnd).2
    simp only [mkdirAll] at h ⊢
    cases hl : lookupEntry q st.entries with
    | none =>
      rw [hl] at h
      obtain ⟨new, hentries, hmem⟩ := mkdirAll_ok_shape qs _ st' h
      have hlook : lookupEntry q st'.entries = some .dir := by
        rw [hentries, lookupEntry_append_of_ne q new _
          (fun e he heq => hq (heq ▸ hmem e he))]
        simp [lookupEntry]
      rw [hlook]
      exact ih hnd' _ _ h
    | some k =>
      cases k with
      | dir =>
        rw [hl] at h
        obtain ⟨new, hentries, hmem⟩ := mkdirAll_ok_shape qs st st' h
        have hlook : lookupEntry q st'.entries = some .dir := by
          rw [hentries, lookupEntry_append_of_ne q new _
            (fun e he heq => hq (heq ▸ hmem e he)), hl]
        rw [hlook]
        exact ih hnd' _ _ h
      | file =>
        rw [hl] at h
        simp at h

lemma prefixes_nodup (p : PPath) : p.prefixes.Nodup := by
  refine List.Nodup.map_on ?_ (List.nodup_range _)
  intro i hi j hj hf
  have hi' : i < p.parts.length := List.mem_range.mp hi
  have hj' : j < p.parts.length := List.mem_range.mp hj
  have hparts : p.parts.take (i + 1) = p.parts.take (j + 1) :=
    congrArg PPath.parts hf
  have := congrArg List.length hparts
  simp only [List.length_take] at this
  omega

/-! ### Claims about directory creation -/

def pDocs : PPath := ⟨true, ["documents"]⟩

def stEmpty : FSState := ⟨[]⟩

def stOne : FSState := ⟨[(pDocs, .dir)]⟩

def pNotes : PPath := ⟨true, ["notes.txt"]⟩

/-- A state in which `pNotes` exists as a regular file. -/
def stFile : FSState := ⟨[(pNotes, .file)]⟩

/-- C7, counterexample: when the path already exists as a regular file,
`create_directory` raises — and calling it a second time in succession
(from the state the first call left behind) raises again, for
`create_directory` and `ensure_directory_exists` alike.  So the second of
two successive calls can raise. -/
theorem create_directory_twice_raises_counterexample :
    (DefaultFileSystem.create_directory stFile pNotes).1 = .error () ∧
    (DefaultFileSystem.create_directory
        (DefaultFileSystem.create_directory stFile pNotes).2 pNotes).1 = .error () ∧
    ((DocumentRepository.mk pNotes).ensure_directory_exists
        ((DocumentRepository.mk pNotes).ensure_directory_exists stFile).2).1 =
      .error () :=
  ⟨rfl, rfl, rfl⟩

/-- C7, amended: directory creation is idempotent on success — whenever a
`create_directory` or `ensure_directory_exists` call succeeds (in
particular, when the path already exists as a directory, it succeeds
silently), repeating the call from the resulting state raises nothing and
leaves the state unchanged. -/
theorem create_directory_idempotent (st st' : FSState) (p : PPath)
    (repo : DocumentRepository) :
    (DefaultFileSystem.create_directory st p = (.ok (), st') →
      DefaultFileSystem.create_directory st' p = (.ok (), st')) ∧
    (repo.ensure_directory_exists st = (.ok (), st') →
      repo.ensure_directory_exists st' = (.ok (), st')) :=
  ⟨mkdirAll_idem p.prefixes (prefixes_nodup p) st st',
   mkdirAll_idem repo.base_directory.prefixes
     (prefixes_nodup repo.base_directory) st st'⟩

theorem create_directory_idempotent_witness :
    DefaultFileSystem.create_directory stOne pDocs = (.ok (), stOne) ∧
    (DocumentRepository.mk pDocs).ensure_directory_exists stOne = (.ok (), stOne) :=
  ⟨(create_directory_idempotent stEmpty stOne pDocs (DocumentRepository.mk pDocs)).1 rfl,
   (create_directory_idempotent stEmpty stOne pDocs (DocumentRepository.mk pDocs)).2 rfl⟩

end LoadDocument
